import Mathlib

/-!
Shallow embedding of the MUTESOL/StackSave backend (Express + Solana) core:
request validation (`src/utils/validation.js`), the transaction-building route
handlers (`src/routes/goals.js`, the transactions router), the wallet-signature
authentication middleware (`src/middleware/authMiddleware.js`), and the
chain-state reader / PDA derivation (`src/services/blockchain.js`).

Route handlers are embedded as pure functions: every awaited chain read that a
handler performs is passed in as an argument (the fetched value), environment
flags (`SIMPLE_AUTH`, `FAUCET_ENABLED`) and the current time are explicit
parameters, and external library calls (public-key validation, base58 decoding,
detached-signature verification, the PDA hashing loop, `parseInt`) are
higher-order oracle parameters.  Monetary amounts in requests and fetched
state are exact naturals; the early-withdrawal arithmetic of the source
(`parseInt` sums, the literal `0.02`, `Math.floor`, the final subtraction)
runs on IEEE-754 binary64 numbers, and is embedded exactly: every JS number
arising in that pipeline is a binary64 value of magnitude at least `2^-6`,
hence an integer multiple of `2^-58`, so it is represented as the natural
`value * 2^58` and each operation applies round-to-nearest, ties-to-even.
-/

namespace StackSave

set_option maxRecDepth 8000

/-! ## JavaScript value model for request-body amounts

`validateAmount` in `src/utils/validation.js` receives the `amount` field of
the JSON body, which may be absent (`undefined`/`null`), a JS number (integral or
fractional), or a string.  We model just enough of JS semantics for that
function: `toString` and truthiness. -/

inductive JsVal where
  | undef
  | int (n : Int)
  | frac (ipart : Int) (fpart : String)
  | str (s : String)
deriving Repr, DecidableEq

/-- Model of JS `value.toString()` (for the values `validateAmount` sees;
`undef` never reaches `toString` in the source, the early return fires first). -/
def jsToString : JsVal → String
  | .undef => ""
  | .int n => toString n
  | .frac ipart fpart => toString ipart ++ "." ++ fpart
  | .str s => s

/-- Model of JS truthiness for the `!amount` style guards in the routers:
`undefined`/`null`, the number 0, and the empty string are falsy. -/
def jsTruthy : JsVal → Bool
  | .undef => false
  | .int n => n != 0
  | .frac _ _ => true
  | .str s => s != ""

/-! ## validation.js -/

/-- Largest u64 value, `BigInt("18446744073709551615")` in the source. -/
def MAX_U64 : Nat := 18446744073709551615

/-- Model of the regex test `/^\d+$/.test(amountStr)`. -/
def isDigitString (s : String) : Bool :=
  s != "" && s.toList.all (fun c => c.isDigit)

/-- Numeric value of an all-digit string (the `BigInt(amountStr)` of the
source, which only runs after the digit-regex test has passed). -/
def digitsToNat (s : String) : Nat :=
  s.toList.foldl (fun acc c => acc * 10 + (c.toNat - 48)) 0

/-- Embedding of `validateAmount` (src/utils/validation.js): rejects
`undefined`/`null`/`""`, anything whose string form is not all digits, and
values above the u64 maximum; `true` means `{ valid: true }` was returned.
(The `amountBigInt < 0n` branch of the source is unreachable after the digit
regex and is dropped.) -/
def validateAmount (amount : JsVal) : Bool :=
  match amount with
  | .undef => false
  | v =>
    let amountStr := jsToString v
    if amountStr = "" then false
    else if !(isDigitString amountStr) then false
    else digitsToNat amountStr ≤ MAX_U64

/-- Embedding of `validateCurrencyId` (src/utils/validation.js). -/
def validateCurrencyId (currencyId : Int) : Bool :=
  currencyId == 0 || currencyId == 1

/-! ## Decoded chain state (src/services/blockchain.js decoders) -/

inductive GoalStatus where
  | active
  | completed
  | withdrawn
deriving Repr, DecidableEq

/-- Decoded goal account, the fields of `getGoalAccount` that the routers
read.  String-encoded u64 fields (`currentAmount`, `accruedInterest`) are
modelled as the naturals they denote. -/
structure Goal where
  name : String
  targetAmount : Nat
  currentAmount : Nat
  accruedInterest : Nat
  currencyId : Int
  createdAt : Int
  deadline : Int
  status : GoalStatus
deriving Repr, DecidableEq

/-- Decoded user account (`getUserAccount`). -/
structure UserAccount where
  owner : String
  totalGoalsCreated : Nat
  activeGoals : Nat
  lifetimeDeposits : Nat
  lifetimeWithdrawals : Nat
deriving Repr, DecidableEq

/-- Decoded global state (`getGlobalState`). -/
structure GlobalState where
  authority : String
  treasury : String
  rewardPool : String
  earlyWithdrawalPenalty : Nat
  totalCurrencies : Nat
deriving Repr, DecidableEq

/-- Decoded currency configuration (`getCurrencyConfig`). -/
structure CurrencyConfig where
  currencyId : Int
  baseTokenMint : String
  savingsTokenMint : String
  liteApy : Nat
  proLowRiskApy : Nat
  proMediumRiskApy : Nat
  proHighRiskApy : Nat
  totalDeposited : Nat
  totalGoals : Nat
deriving Repr, DecidableEq

/-- Decoded faucet configuration (`getFaucetConfig`). -/
structure FaucetConfig where
  authority : String
  tokenMint : String
  amountPerClaim : Nat
  cooldownPeriod : Nat
  maxClaimsPerDay : Nat
  totalClaimed : Nat
  totalUsers : Nat
deriving Repr, DecidableEq

/-- Decoded per-user faucet account (`getUserFaucetAccount`). -/
structure UserFaucetAccount where
  user : String
  lastClaimTime : Int
  claimsToday : Nat
  totalClaims : Nat
deriving Repr, DecidableEq

/-! ## ChainStateReader error behaviour (src/services/blockchain.js)

Each `get*` method wraps `program.account.*.fetch` in try/catch.  The fetch
either succeeds with the account data or throws; a missing account throws the
distinguished "Account does not exist" error.  We model the fetch outcome as
an `Except FetchError` input and each getter as the catch-block logic applied
to it. -/

inductive FetchError where
  | accountNotFound
  | rpcFailure (msg : String)
deriving Repr, DecidableEq

/-- Embedding of `getUserAccount`: the catch block turns the
"Account does not exist" error into `null` and rethrows anything else. -/
def getUserAccount (fetched : Except FetchError UserAccount) :
    Except FetchError (Option UserAccount) :=
  match fetched with
  | .ok a => .ok (some a)
  | .error .accountNotFound => .ok none
  | .error e => .error e

/-- Embedding of `getGoalAccount` (same catch shape as `getUserAccount`). -/
def getGoalAccount (fetched : Except FetchError Goal) :
    Except FetchError (Option Goal) :=
  match fetched with
  | .ok a => .ok (some a)
  | .error .accountNotFound => .ok none
  | .error e => .error e

/-- Embedding of `getFaucetConfig` (same catch shape as `getUserAccount`). -/
def getFaucetConfig (fetched : Except FetchError FaucetConfig) :
    Except FetchError (Option FaucetConfig) :=
  match fetched with
  | .ok a => .ok (some a)
  | .error .accountNotFound => .ok none
  | .error e => .error e

/-- Embedding of `getUserFaucetAccount` (same catch shape as
`getUserAccount`). -/
def getUserFaucetAccount (fetched : Except FetchError UserFaucetAccount) :
    Except FetchError (Option UserFaucetAccount) :=
  match fetched with
  | .ok a => .ok (some a)
  | .error .accountNotFound => .ok none
  | .error e => .error e

/-- Embedding of `getGlobalState`: its catch block logs and rethrows every
error — a missing account is NOT converted to an absent result. -/
def getGlobalState (fetched : Except FetchError GlobalState) :
    Except FetchError GlobalState :=
  match fetched with
  | .ok a => .ok a
  | .error e => .error e

/-- Embedding of `getCurrencyConfig`: like `getGlobalState`, the catch block
logs and rethrows every error, including "Account does not exist". -/
def getCurrencyConfig (currencyId : Int)
    (fetched : Except FetchError CurrencyConfig) :
    Except FetchError CurrencyConfig :=
  match currencyId, fetched with
  | _, .ok a => .ok a
  | _, .error e => .error e

/-! ## Program-derived addresses (src/services/blockchain.js)

`PublicKey.findProgramAddressSync` is a deterministic function of the seed
byte strings and the program id (a sha256-and-bump-walk loop); we model it as
an arbitrary function parameter `find`.  The concrete content of the embedding
is the seed construction: `Buffer.from([goalIndex])` and
`Buffer.from([currencyId])` truncate the value to a single byte. -/

/-- Node `Buffer.from([v])` keeps only the low byte of `v`. -/
def byteSeed (v : Nat) : Nat := v % 256

/-- UTF-8 bytes of an (ASCII) namespace tag, `Buffer.from("...")`. -/
def utf8Bytes (s : String) : List Nat := s.toList.map Char.toNat

/-- Seed list of `getGoalAccountPDA`:
`["goal", wallet bytes, [goalIndex as one byte]]`. -/
def goalSeeds (walletBytes : List Nat) (goalIndex : Nat) : List (List Nat) :=
  [utf8Bytes "goal", walletBytes, [byteSeed goalIndex]]

/-- Embedding of `getGoalAccountPDA`, parameterised by the derivation
function. -/
def getGoalAccountPDA (find : List (List Nat) → List Nat → List Nat)
    (programId walletBytes : List Nat) (goalIndex : Nat) : List Nat :=
  find (goalSeeds walletBytes goalIndex) programId

/-- Seed list of `getCurrencyConfigPDA`:
`["currency", [currencyId as one byte]]`. -/
def currencySeeds (currencyId : Nat) : List (List Nat) :=
  [utf8Bytes "currency", [byteSeed currencyId]]

/-- Embedding of `getCurrencyConfigPDA`, parameterised by the derivation
function. -/
def getCurrencyConfigPDA (find : List (List Nat) → List Nat → List Nat)
    (programId : List Nat) (currencyId : Nat) : List Nat :=
  find (currencySeeds currencyId) programId

/-! ## IEEE-754 binary64 model for the withdrawal arithmetic

`buildWithdrawEarlyTx` / `buildWithdrawCompletedTx` compute

  `totalAmount = parseInt(goal.currentAmount) + parseInt(goal.accruedInterest)`
  `penalty     = Math.floor(totalAmount * 0.02)`
  `amountAfterPenalty = totalAmount - penalty`

on JS numbers, i.e. IEEE-754 binary64 values with round-to-nearest,
ties-to-even.  Every number arising in this pipeline — the parsed u64
amounts, their rounded sum, the literal `0.02` (whose nearest binary64 is
`5764607523034235 * 2^-58`), the rounded product, the floored penalty and
the rounded difference — is a binary64 value of magnitude `0`, or at least
`2^-6` and below `2^65`, hence an integer multiple of `2^-58`.  We therefore
represent a JS number of value `v` exactly as the natural `v * 2^58` and
implement each rounding step with exact integer arithmetic (no overflow,
subnormal or NaN case is reachable in this range). -/

/-- Fuel-driven `⌊log2 n⌋` (0 for `n = 0` or `1`); fuel 600 covers every
argument occurring here (all are below `2^600`). -/
def log2Fuel : Nat → Nat → Nat
  | 0, _ => 0
  | f + 1, n => if 2 ≤ n then log2Fuel f (n / 2) + 1 else 0

/-- Round `a / b` (with `b > 0`) to the nearest integer, ties to even. -/
def roundHalfEvenDiv (a b : Nat) : Nat :=
  let q := a / b
  let r := a % b
  if 2 * r < b then q
  else if b < 2 * r then q + 1
  else if q % 2 = 0 then q else q + 1

/-- Round the positive rational `num / den` to the nearest binary64 value
(round-to-nearest, ties-to-even), returned scaled by `2^58`.  The binade of
`num / den` is located via `Lb = 128 + ⌊log2 (num/den)⌋`, the 53-bit
mantissa is obtained by rounding `num / den` divided by its unit in the
last place `2^(Lb - 180)`, and the result is exact whenever the value is at
least `2^-6` (all uses here are); smaller values fall outside the modelled
range and map to 0. -/
def roundRatFix (num den : Nat) : Nat :=
  if num = 0 then 0
  else
    let Lb := log2Fuel 600 (num * 2 ^ 128 / den)
    let m := if Lb ≤ 180 then roundHalfEvenDiv (num * 2 ^ (180 - Lb)) den
             else roundHalfEvenDiv num (den * 2 ^ (Lb - 180))
    if 122 ≤ Lb then m * 2 ^ (Lb - 122) else 0

/-- The binary64 value of the integer `n` (the result of `parseInt` on the
decimal string denoting `n`), scaled by `2^58`. -/
def fixOfNat (n : Nat) : Nat := roundRatFix n 1

/-- The binary64 value denoted by the source literal `0.02`, scaled by
`2^58` (equals `5764607523034235`, i.e. the double `5764607523034235 *
2^-58`). -/
def lit002 : Nat := roundRatFix 1 50

/-- Binary64 addition of two scaled values (exact sum, then rounded). -/
def fixAdd (a b : Nat) : Nat := roundRatFix (a + b) (2 ^ 58)

/-- Binary64 multiplication of two scaled values (exact product has scale
`2^116`, then rounded). -/
def fixMul (a b : Nat) : Nat := roundRatFix (a * b) (2 ^ 116)

/-- Binary64 subtraction of two scaled values with `a ≥ b` (exact
difference, then rounded). -/
def fixSub (a b : Nat) : Nat := roundRatFix (a - b) (2 ^ 58)

/-- `Math.floor` of a nonnegative scaled binary64 value, as the exact
natural it denotes (the floor of a binary64 number is always exactly
representable). -/
def fixFloor (a : Nat) : Nat := a / 2 ^ 58

/-! ## Transactions router: POST /api/transactions/withdraw

The handler fetches the goal, guards, computes `isEarly = deadline > now`,
then builds `WithdrawEarlyTx` when `isEarly || early` (where `early` is the
flag of the request body) and `WithdrawCompletedTx` otherwise.  The
`details` merge the builder result: for the early path
`penalty = Math.floor(totalAmount * 0.02)` and
`totalAfterPenalty = totalAmount - penalty` in binary64 arithmetic as
modelled above; for the completed path `penalty` falls back to `"0"` and
`finalAmount` to `totalAmount`. -/

inductive TxVariant where
  | withdrawEarly
  | withdrawCompleted
deriving Repr, DecidableEq

/-- The binary64 value (scaled by `2^58`) of
`parseInt(goal.currentAmount) + parseInt(goal.accruedInterest)`. -/
def totalDouble (g : Goal) : Nat :=
  fixAdd (fixOfNat g.currentAmount) (fixOfNat g.accruedInterest)

/-- Penalty computation of `buildWithdrawEarlyTx`,
`Math.floor(totalAmount * 0.02)`, on the scaled binary64 total. -/
def earlyPenalty (totalAmount : Nat) : Nat :=
  fixFloor (fixMul totalAmount lit002)

/-- The exact `floor(totalValue * 0.02)` that the penalty formula of the
spec denotes, for comparison with the binary64 computation of the source
(see `specPenalty_eq_floor`). -/
def specPenalty (t : Nat) : Nat := t * 2 / 100

/-- The `details` object of a successful withdraw response together with the
transaction variant that was built. -/
structure WithdrawDetails where
  variant : TxVariant
  withdrawalType : String
  principal : Nat
  interest : Nat
  totalBeforePenalty : Nat
  penalty : Nat
  finalAmount : Nat
deriving Repr, DecidableEq

inductive WithdrawResult where
  | missingFields
  | goalNotFound
  | noFunds
  | built (d : WithdrawDetails)
deriving Repr, DecidableEq

/-- Embedding of the `POST /withdraw` handler of the transactions router.
`goal` is the result of the awaited `getGoalAccount(walletAddress, goalIndex)`
read; `goalIndexPresent` is `goalIndex !== undefined`; `early` is the JS
truthiness of the `early` flag of the body. -/
def postWithdraw (nowSec : Int) (goal : Option Goal)
    (walletAddress : String) (goalIndexPresent : Bool) (early : Bool) :
    WithdrawResult :=
  if walletAddress == "" || !goalIndexPresent then .missingFields
  else
    match goal with
    | none => .goalNotFound
    | some g =>
      if g.currentAmount == 0 then .noFunds
      else
        let isEarly : Bool := g.deadline > nowSec
        if isEarly || early then
          let totalAmount := totalDouble g
          let penalty := earlyPenalty totalAmount
          .built
            { variant := .withdrawEarly
              withdrawalType := "early"
              principal := g.currentAmount
              interest := g.accruedInterest
              totalBeforePenalty := fixFloor totalAmount
              penalty := penalty
              finalAmount := fixFloor (fixSub totalAmount (fixOfNat penalty)) }
        else
          let totalAmount := totalDouble g
          .built
            { variant := .withdrawCompleted
              withdrawalType := "completed"
              principal := g.currentAmount
              interest := g.accruedInterest
              totalBeforePenalty := fixFloor totalAmount
              penalty := 0
              finalAmount := fixFloor totalAmount }

/-! ## Transactions router: POST /api/transactions/deposit -/

inductive DepositResult where
  | missingFields
  | invalidAmount
  | invalidCurrency
  | goalNotFound
  | goalNotActive
  | currencyMismatch
  | built (amount : Nat) (newTotal : Nat)
deriving Repr, DecidableEq

/-- Embedding of the `POST /deposit` handler.  `goal` is the awaited
`getGoalAccount` result for the requested index; `goalIndexPresent` models
`goalIndex !== undefined`, `currencyId = none` models an absent field.  A
`built` result carries the deposit amount and the reported
`newTotal = parseInt(goal.currentAmount) + parseInt(amount)`. -/
def postDeposit (walletAddress : String) (goalIndexPresent : Bool)
    (amount : JsVal) (currencyId : Option Int) (goal : Option Goal) :
    DepositResult :=
  if walletAddress == "" || !goalIndexPresent || !(jsTruthy amount)
      || currencyId.isNone then .missingFields
  else if !(validateAmount amount) then .invalidAmount
  else if !(validateCurrencyId (currencyId.getD 0)) then .invalidCurrency
  else
    match goal with
    | none => .goalNotFound
    | some g =>
      if g.status != .active then .goalNotActive
      else if g.currencyId != currencyId.getD 0 then .currencyMismatch
      else
        let amt := digitsToNat (jsToString amount)
        .built amt (g.currentAmount + amt)

/-! ## Transactions router: POST /api/transactions/faucet/claim -/

inductive FaucetResult where
  | missingWallet
  | missingToken
  | faucetDisabled
  | cooldownActive (remainingSeconds : Int)
  | dailyLimitReached
  | built
deriving Repr, DecidableEq

/-- A 429 rate-limit rejection of the faucet route. -/
def FaucetResult.isRateLimited : FaucetResult → Bool
  | .cooldownActive _ => true
  | .dailyLimitReached => true
  | _ => false

/-- Embedding of the `POST /faucet/claim` handler.  `mintResolved` is whether
a token mint was determined (from `tokenMint` or via the currency config);
`faucetEnabled` is `process.env.FAUCET_ENABLED === "true"`;
`userFaucetAccount` is the awaited `getUserFaucetAccount` result. -/
def postFaucetClaim (faucetEnabled : Bool) (nowSec : Int)
    (walletAddress : String) (mintResolved : Bool)
    (userFaucetAccount : Option UserFaucetAccount) : FaucetResult :=
  if walletAddress == "" then .missingWallet
  else if !mintResolved then .missingToken
  else if !faucetEnabled then .faucetDisabled
  else
    match userFaucetAccount with
    | none => .built
    | some acct =>
      let cooldownPeriod : Int := 3600
      let timeSinceLastClaim := nowSec - acct.lastClaimTime
      if timeSinceLastClaim < cooldownPeriod then
        .cooldownActive (cooldownPeriod - timeSinceLastClaim)
      else if acct.claimsToday ≥ 10 then .dailyLimitReached
      else .built

/-! ## Goals router: POST /api/goals/create -/

inductive RiskTier where
  | low
  | medium
  | high
deriving Repr, DecidableEq

/-- The risk-tier instruction argument computed by `buildCreateGoalTx`:
`null` unless `mode === "pro"` — a risk tier supplied with a lite goal is
never encoded. -/
def riskTierArg (mode : String) (riskTier : Option String) : Option RiskTier :=
  if mode == "pro" then
    some (if riskTier == some "low" then .low
          else if riskTier == some "medium" then .medium
          else .high)
  else none

inductive CreateGoalResult where
  | missingFields
  | missingRiskTier
  | invalidMode
  | invalidRiskTier
  | userNotInitialized
  | maxGoalsReached
  | invalidDeadline
  | built (goalIndex : Nat) (riskTier : Option RiskTier)
deriving Repr, DecidableEq

/-- JS truthiness of an optional string body field (`!riskTier`). -/
def optTruthy (o : Option String) : Bool :=
  match o with
  | none => false
  | some s => s != ""

/-- Embedding of the `POST /create` handler of the goals router.  `user` is
the awaited `getUserAccount` result; `deadline = 0` models the falsy
`!deadline`; a `built` result carries the goal index
(`userAccount.totalGoalsCreated`) and the risk-tier argument encoded by
`buildCreateGoalTx`. -/
def postCreateGoal (nowSec : Int) (user : Option UserAccount)
    (walletAddress name : String) (targetAmount : Nat) (mode : String)
    (riskTier : Option String) (currencyIdPresent : Bool) (deadline : Int) :
    CreateGoalResult :=
  if walletAddress == "" || name == "" || targetAmount == 0 || mode == ""
      || !currencyIdPresent || deadline == 0 then .missingFields
  else if mode == "pro" && !(optTruthy riskTier) then .missingRiskTier
  else if !(mode == "lite" || mode == "pro") then .invalidMode
  else if mode == "pro"
      && !(riskTier == some "low" || riskTier == some "medium"
           || riskTier == some "high") then .invalidRiskTier
  else
    match user with
    | none => .userNotInitialized
    | some u =>
      if u.activeGoals ≥ 5 then .maxGoalsReached
      else if deadline < nowSec + 90 * 24 * 60 * 60 then .invalidDeadline
      else .built u.totalGoalsCreated (riskTierArg mode riskTier)

/-! ## Authentication middleware (src/middleware/authMiddleware.js)

`verifyWalletSignature` reads four headers, branches on the process-wide
`SIMPLE_AUTH` flag, and either rejects (401/403) or attaches the
authenticated wallet.  External library behaviour is passed in as oracles:
`parseIntJs` (header string to number, `none` for NaN), `isValidPublicKey`
(the `new PublicKey(...)` constructor succeeding), `decodesBase58`
(`bs58.decode` succeeding), and `verifyDetached`
(`nacl.sign.detached.verify(message, signature, publicKey)`). -/

/-- JS truthiness of an optional header (`!header`): absent or empty is
falsy. -/
def hdrTruthy (o : Option String) : Bool :=
  match o with
  | none => false
  | some s => s != ""

/-- The request fields the middleware inspects. -/
structure AuthRequest where
  walletAddress : Option String
  signature : Option String
  message : Option String
  timestamp : Option String
  paramsAddress : Option String
  bodyWalletAddress : Option String
deriving Repr, DecidableEq

inductive AuthOutcome where
  | unauthorized (err : String)
  | forbidden (err : String)
  | authenticated (wallet : String)
deriving Repr, DecidableEq

/-- The ±5-minute anti-replay window, `5 * 60 * 1000` milliseconds. -/
def fiveMinutesMs : Nat := 300000

/-- Embedding of `verifyWalletSignature`.  `simpleAuthMode` is
`process.env.SIMPLE_AUTH` being the string true; `nowMs` is `Date.now()`.  The outcome
`unauthorized e` is a 401 response with error tag `e`, `forbidden` a 403, and
`authenticated w` means `req.authenticatedWallet = w` was set and `next()`
called. -/
def verifyWalletSignature (simpleAuthMode : Bool)
    (parseIntJs : String → Option Int)
    (isValidPublicKey : String → Bool)
    (decodesBase58 : String → Bool)
    (verifyDetached : String → String → String → Bool)
    (nowMs : Int) (req : AuthRequest) : AuthOutcome :=
  if simpleAuthMode then
    if !(hdrTruthy req.walletAddress) || !(hdrTruthy req.timestamp) then
      .unauthorized "Missing authentication headers"
    else
      let w := req.walletAddress.getD ""
      if !(isValidPublicKey w) then .unauthorized "Invalid wallet address"
      else
        match parseIntJs (req.timestamp.getD "") with
        | none => .unauthorized "Invalid timestamp"
        | some _ => .authenticated w
  else
    if !(hdrTruthy req.walletAddress) || !(hdrTruthy req.signature)
        || !(hdrTruthy req.message) || !(hdrTruthy req.timestamp) then
      .unauthorized "Missing authentication headers"
    else
      let w := req.walletAddress.getD ""
      let sig := req.signature.getD ""
      let msg := req.message.getD ""
      match parseIntJs (req.timestamp.getD "") with
      | none => .unauthorized "Invalid timestamp"
      | some requestTimestamp =>
        if (nowMs - requestTimestamp).natAbs > fiveMinutesMs then
          .unauthorized "Timestamp expired"
        else if !(isValidPublicKey w) then
          .unauthorized "Invalid wallet address"
        else if !(decodesBase58 sig) then
          .unauthorized "Invalid signature format"
        else if !(verifyDetached msg sig w) then
          .unauthorized "Invalid signature"
        else if hdrTruthy req.paramsAddress
            && req.paramsAddress.getD "" != w then
          .forbidden "Forbidden"
        else if hdrTruthy req.bodyWalletAddress
            && req.bodyWalletAddress.getD "" != w then
          .forbidden "Forbidden"
        else .authenticated w

/-! ## Helper lemmas -/

/-- Evaluation of the withdraw handler once the guards pass: the built
variant is decided by `isEarly || early`. -/
theorem postWithdraw_eq_ite (nowSec : Int) (g : Goal) (w : String)
    (early : Bool) (hw : w ≠ "") (hamt : g.currentAmount ≠ 0) :
    postWithdraw nowSec (some g) w true early =
      (if nowSec < g.deadline ∨ early = true then
        .built
          { variant := .withdrawEarly
            withdrawalType := "early"
            principal := g.currentAmount
            interest := g.accruedInterest
            totalBeforePenalty := fixFloor (totalDouble g)
            penalty := earlyPenalty (totalDouble g)
            finalAmount := fixFloor (fixSub (totalDouble g)
              (fixOfNat (earlyPenalty (totalDouble g)))) }
      else
        .built
          { variant := .withdrawCompleted
            withdrawalType := "completed"
            principal := g.currentAmount
            interest := g.accruedInterest
            totalBeforePenalty := fixFloor (totalDouble g)
            penalty := 0
            finalAmount := fixFloor (totalDouble g) }) := by
  have hw2 : (w == "") = false := by
    simpa using hw
  have ha2 : (g.currentAmount == 0) = false := by
    simpa using hamt
  simp only [postWithdraw, hw2, Bool.false_or, Bool.not_true, Bool.or_false,
    Bool.false_eq_true, if_false, ha2, gt_iff_lt, Bool.or_eq_true,
    decide_eq_true_eq]

/-- The spec-side penalty formula is the exact rational floor
`⌊totalValue * 0.02⌋`. -/
theorem specPenalty_eq_floor (t : Nat) :
    specPenalty t = ⌊(t : ℚ) * (2 / 100)⌋₊ := by
  have h : (t : ℚ) * (2 / 100) = ((t * 2 : Nat) : ℚ) / ((100 : Nat) : ℚ) := by
    push_cast
    ring
  rw [specPenalty, h, Nat.floor_div_eq_div]

/-- The scaled binary64 value of the literal `0.02` is the mantissa
`5764607523034235`, i.e. the double `5764607523034235 * 2^-58` (the value
`0.0200000000000000004163...`), strictly above `1/50`. -/
theorem lit002_eq : lit002 = 5764607523034235 ∧
    (1 : ℚ) / 50 < (5764607523034235 : ℚ) / 2 ^ 58 := by
  constructor
  · decide
  · norm_num

/-! ## Claim theorems -/

/-- Claim C1, counterexample: a goal whose deadline (999) is one second
before the request time (1000) is nevertheless built as a `WithdrawEarly`
(2% penalty) transaction when the request body carries `early: true` — the
claim says a goal with deadline = now − 1 is always built as a completed
withdrawal. -/
theorem c1_counterexample :
    (999 : Int) < 1000 ∧
    postWithdraw 1000
      (some { name := "g", targetAmount := 1000, currentAmount := 100,
              accruedInterest := 0, currencyId := 0, createdAt := 0,
              deadline := 999, status := .active })
      "walletA" true true
    = .built { variant := .withdrawEarly, withdrawalType := "early",
               principal := 100, interest := 0, totalBeforePenalty := 100,
               penalty := 2, finalAmount := 98 } := by
  exact ⟨by decide, by decide⟩

/-- Claim C1 (amended): for a withdrawal request on an existing goal with
nonzero current amount, the built variant is `WithdrawEarly` if and only if
the deadline is strictly in the future OR the request body carries a truthy
`early` flag, and `WithdrawCompleted` if and only if the deadline has passed
AND the `early` flag is falsy; with the flag absent or false the deadline
comparison alone decides, exactly as the claim states. -/
theorem c1_withdraw_variant (nowSec : Int) (g : Goal) (w : String)
    (early : Bool) (hw : w ≠ "") (hamt : g.currentAmount ≠ 0) :
    ∃ d : WithdrawDetails,
      postWithdraw nowSec (some g) w true early = .built d ∧
      (d.variant = .withdrawEarly ↔ (nowSec < g.deadline ∨ early = true)) ∧
      (d.variant = .withdrawCompleted ↔
        (g.deadline ≤ nowSec ∧ early = false)) := by
  rw [postWithdraw_eq_ite nowSec g w early hw hamt]
  by_cases h : nowSec < g.deadline ∨ early = true
  · refine ⟨_, by rw [if_pos h], ?_, ?_⟩
    · simpa using h
    · constructor
      · intro hcontra
        exact absurd hcontra (by simp)
      · rintro ⟨hd, he⟩
        rcases h with h | h
        · exact absurd h (not_lt.mpr hd)
        · rw [he] at h
          cases h
  · refine ⟨_, by rw [if_neg h], ?_, ?_⟩
    · constructor
      · intro hcontra
        exact absurd hcontra (by simp)
      · intro hcontra
        exact absurd hcontra h
    · push_neg at h
      have he : early = false := by
        cases early
        · rfl
        · exact absurd rfl h.2
      simp [h.1, he]

/-- Claim C1 witness: at `now = 1000`, a goal with deadline 999 and a falsy
`early` flag is built as `WithdrawCompleted`, and the same goal with deadline
1001 is built as `WithdrawEarly`. -/
theorem c1_withdraw_variant_witness :
    (∃ d : WithdrawDetails,
      postWithdraw 1000
        (some { name := "g", targetAmount := 1000, currentAmount := 100,
                accruedInterest := 0, currencyId := 0, createdAt := 0,
                deadline := 999, status := .active })
        "walletA" true false = .built d ∧
      (d.variant = .withdrawEarly ↔ ((1000 : Int) < 999 ∨ false = true)) ∧
      (d.variant = .withdrawCompleted ↔
        ((999 : Int) ≤ 1000 ∧ false = false))) ∧
    (∃ d : WithdrawDetails,
      postWithdraw 1000
        (some { name := "g", targetAmount := 1000, currentAmount := 100,
                accruedInterest := 0, currencyId := 0, createdAt := 0,
                deadline := 1001, status := .active })
        "walletA" true false = .built d ∧
      (d.variant = .withdrawEarly ↔ ((1000 : Int) < 1001 ∨ false = true)) ∧
      (d.variant = .withdrawCompleted ↔
        ((1001 : Int) ≤ 1000 ∧ false = false))) := by
  constructor
  · exact c1_withdraw_variant 1000 _ "walletA" false (by decide) (by decide)
  · exact c1_withdraw_variant 1000 _ "walletA" false (by decide) (by decide)

/-- Claim C2, counterexample: at the valid u64 state
`currentAmount = 2^63 = 9223372036854775808` (interest 0), the handler
reports penalty `184467440737095520` — the binary64 evaluation of
`Math.floor(totalAmount * 0.02)` — and delivered amount
`9038904596117680128`, whereas the exact `floor(totalValue * 0.02)` the
claim asserts is `184467440737095516` with exact remainder
`9038904596117680292`: the claim fails on the code. -/
theorem c2_counterexample :
    postWithdraw 0
      (some { name := "g", targetAmount := 9223372036854775808,
              currentAmount := 9223372036854775808, accruedInterest := 0,
              currencyId := 0, createdAt := 0, deadline := 10,
              status := .active })
      "walletA" true false
    = .built { variant := .withdrawEarly, withdrawalType := "early",
               principal := 9223372036854775808, interest := 0,
               totalBeforePenalty := 9223372036854775808,
               penalty := 184467440737095520,
               finalAmount := 9038904596117680128 } ∧
    specPenalty 9223372036854775808 = 184467440737095516 ∧
    (184467440737095520 : Nat)
      ≠ ⌊((9223372036854775808 : Nat) : ℚ) * (2 / 100)⌋₊ ∧
    (9038904596117680128 : Nat)
      ≠ 9223372036854775808 - specPenalty 9223372036854775808 := by
  refine ⟨by decide, by decide, ?_, by decide⟩
  rw [← specPenalty_eq_floor]
  decide

/-- Claim C2 (amended): whenever the withdraw handler builds the early
variant, the reported `totalBeforePenalty` is the binary64 sum of the parsed
`currentAmount` and `accruedInterest` of the fetched goal, the reported
penalty is `Math.floor` of the binary64 product of that total with the
binary64 value of the literal `0.02`, and the reported final amount is the
binary64 difference of the total and the penalty; this coincides with the
exact `floor(totalValue * 0.02)` and `totalValue - penalty` at the example
values of the spec (10000 gives 200 and 9800, 1 gives 0 and 1 — see the
witness) but not at every u64 total (see the counterexample at `2^63`). -/
theorem c2_early_penalty (nowSec : Int) (g : Goal) (w : String)
    (early : Bool) (d : WithdrawDetails)
    (hw : w ≠ "") (hamt : g.currentAmount ≠ 0)
    (hbuilt : postWithdraw nowSec (some g) w true early = .built d)
    (hvar : d.variant = .withdrawEarly) :
    d.totalBeforePenalty = fixFloor (totalDouble g) ∧
    d.penalty = fixFloor (fixMul (totalDouble g) lit002) ∧
    d.finalAmount = fixFloor (fixSub (totalDouble g) (fixOfNat d.penalty)) := by
  rw [postWithdraw_eq_ite nowSec g w early hw hamt] at hbuilt
  by_cases h : nowSec < g.deadline ∨ early = true
  · rw [if_pos h] at hbuilt
    have hd : d = _ := (WithdrawResult.built.injEq _ _).mp hbuilt.symm
    subst hd
    exact ⟨rfl, rfl, rfl⟩
  · rw [if_neg h] at hbuilt
    have hd : d = _ := (WithdrawResult.built.injEq _ _).mp hbuilt.symm
    subst hd
    simp at hvar

/-- Claim C2 witness: the theorem applied to goals with `totalValue = 10000`
and `totalValue = 1`; on these inputs the binary64 pipeline yields penalty
200 with delivered amount 9800, and penalty 0 with delivered amount 1,
agreeing with the exact `floor(totalValue * 0.02)` of the spec. -/
theorem c2_early_penalty_witness :
    ((200 : Nat) = fixFloor (fixMul (fixAdd (fixOfNat 10000) (fixOfNat 0))
        lit002) ∧
     (9800 : Nat) = fixFloor (fixSub (fixAdd (fixOfNat 10000) (fixOfNat 0))
        (fixOfNat 200)) ∧
     (0 : Nat) = fixFloor (fixMul (fixAdd (fixOfNat 1) (fixOfNat 0))
        lit002) ∧
     (1 : Nat) = fixFloor (fixSub (fixAdd (fixOfNat 1) (fixOfNat 0))
        (fixOfNat 0))) ∧
    specPenalty 10000 = 200 ∧ specPenalty 1 = 0 := by
  have h1 := c2_early_penalty 0
    { name := "g", targetAmount := 20000, currentAmount := 10000,
      accruedInterest := 0, currencyId := 0, createdAt := 0,
      deadline := 10, status := .active }
    "walletA" false
    { variant := .withdrawEarly, withdrawalType := "early",
      principal := 10000, interest := 0, totalBeforePenalty := 10000,
      penalty := 200, finalAmount := 9800 }
    (by decide) (by decide) (by decide) rfl
  have h2 := c2_early_penalty 0
    { name := "g", targetAmount := 20000, currentAmount := 1,
      accruedInterest := 0, currencyId := 0, createdAt := 0,
      deadline := 10, status := .active }
    "walletA" false
    { variant := .withdrawEarly, withdrawalType := "early",
      principal := 1, interest := 0, totalBeforePenalty := 1,
      penalty := 0, finalAmount := 1 }
    (by decide) (by decide) (by decide) rfl
  exact ⟨⟨h1.2.1, h1.2.2, h2.2.1, h2.2.2⟩, by decide, by decide⟩

/-- Claim C3, counterexample: with simplified authentication mode enabled, a
request authenticated as `walletA` whose body names `walletB` is NOT rejected
with 403 — it succeeds as `walletA` (the claim says such a request always
gets a 403). -/
theorem c3_counterexample :
    verifyWalletSignature true (fun s => if s == "5" then some 5 else none)
      (fun _ => true) (fun _ => true) (fun _ _ _ => true) 0
      { walletAddress := some "walletA", signature := none, message := none,
        timestamp := some "5", paramsAddress := none,
        bodyWalletAddress := some "walletB" }
    = .authenticated "walletA" := by
  decide

/-- Claim C3 (amended): in FULL authentication mode, a request that passes
every header, timestamp, key-format, and signature check and whose route
params or body names a nonempty wallet address different from the
authenticated wallet is rejected with 403 Forbidden — never a 404 and never
a success; in simplified mode the ownership comparison is skipped. -/
theorem c3_cross_account_forbidden (parseIntJs : String → Option Int)
    (isValidPublicKey decodesBase58 : String → Bool)
    (verifyDetached : String → String → String → Bool)
    (nowMs n : Int) (w sig msg ts : String) (pa bw : Option String)
    (hw : w ≠ "") (hsig : sig ≠ "") (hmsg : msg ≠ "") (hts : ts ≠ "")
    (hp : parseIntJs ts = some n)
    (hwin : (nowMs - n).natAbs ≤ fiveMinutesMs)
    (hkey : isValidPublicKey w = true)
    (hb58 : decodesBase58 sig = true)
    (hver : verifyDetached msg sig w = true)
    (hmis : (∃ p, pa = some p ∧ p ≠ "" ∧ p ≠ w) ∨
            (∃ b, bw = some b ∧ b ≠ "" ∧ b ≠ w)) :
    verifyWalletSignature false parseIntJs isValidPublicKey decodesBase58
      verifyDetached nowMs
      { walletAddress := some w, signature := some sig, message := some msg,
        timestamp := some ts, paramsAddress := pa, bodyWalletAddress := bw }
    = .forbidden "Forbidden" := by
  have hnw : ¬ ((nowMs - n).natAbs > fiveMinutesMs) := not_lt.mpr hwin
  rcases hmis with ⟨p, hpa, hpne, hpw⟩ | ⟨b, hbw, hbne, hbw2⟩
  · subst hpa
    simp [verifyWalletSignature, hdrTruthy, hw, hsig, hmsg, hts, hp, hnw,
      hkey, hb58, hver, hpne, hpw]
  · subst hbw
    rcases pa with _ | q
    · simp [verifyWalletSignature, hdrTruthy, hw, hsig, hmsg, hts, hp, hnw,
        hkey, hb58, hver, hbne, hbw2]
    · by_cases hq : q = ""
      · simp [verifyWalletSignature, hdrTruthy, hw, hsig, hmsg, hts, hp,
          hnw, hkey, hb58, hver, hq, hbne, hbw2]
      · by_cases hqw : q = w
        · simp [verifyWalletSignature, hdrTruthy, hw, hsig, hmsg, hts, hp,
            hnw, hkey, hb58, hver, hq, hqw, hbne, hbw2]
        · simp [verifyWalletSignature, hdrTruthy, hw, hsig, hmsg, hts, hp,
            hnw, hkey, hb58, hver, hq, hqw]

/-- Claim C3 witness: a concrete fully-authenticated request whose body
names a different wallet gets the 403 Forbidden outcome. -/
theorem c3_cross_account_forbidden_witness :
    verifyWalletSignature false (fun s => if s == "5" then some 5 else none)
      (fun _ => true) (fun _ => true) (fun _ _ _ => true) 0
      { walletAddress := some "walletA", signature := some "sigBytes",
        message := some "login", timestamp := some "5",
        paramsAddress := none, bodyWalletAddress := some "walletB" }
    = .forbidden "Forbidden" := by
  exact c3_cross_account_forbidden
    (fun s => if s == "5" then some 5 else none) (fun _ => true)
    (fun _ => true) (fun _ _ _ => true) 0 5 "walletA" "sigBytes" "login" "5"
    none (some "walletB") (by decide) (by decide) (by decide) (by decide)
    (by decide) (by decide) rfl rfl rfl
    (Or.inr ⟨"walletB", rfl, by decide, by decide⟩)

/-- Claim C4: in full authentication mode, a request with all four headers
whose parsed timestamp differs from the current time by strictly more than
five minutes (300000 ms) in either direction is rejected 401 with the
timestamp-expired error; one within the window passes the timestamp check
(and, when every later check also passes, is authenticated). -/
theorem c4_timestamp_window (parseIntJs : String → Option Int)
    (isValidPublicKey decodesBase58 : String → Bool)
    (verifyDetached : String → String → String → Bool)
    (nowMs n : Int) (w sig msg ts : String)
    (hw : w ≠ "") (hsig : sig ≠ "") (hmsg : msg ≠ "") (hts : ts ≠ "")
    (hp : parseIntJs ts = some n) :
    ((nowMs - n).natAbs > fiveMinutesMs →
      verifyWalletSignature false parseIntJs isValidPublicKey decodesBase58
        verifyDetached nowMs
        { walletAddress := some w, signature := some sig,
          message := some msg, timestamp := some ts, paramsAddress := none,
          bodyWalletAddress := none }
      = .unauthorized "Timestamp expired") ∧
    ((nowMs - n).natAbs ≤ fiveMinutesMs →
      isValidPublicKey w = true → decodesBase58 sig = true →
      verifyDetached msg sig w = true →
      verifyWalletSignature false parseIntJs isValidPublicKey decodesBase58
        verifyDetached nowMs
        { walletAddress := some w, signature := some sig,
          message := some msg, timestamp := some ts, paramsAddress := none,
          bodyWalletAddress := none }
      = .authenticated w) := by
  constructor
  · intro hbig
    simp [verifyWalletSignature, hdrTruthy, hw, hsig, hmsg, hts, hp, hbig]
  · intro hwin hkey hb58 hver
    have hnw : ¬ ((nowMs - n).natAbs > fiveMinutesMs) := not_lt.mpr hwin
    simp [verifyWalletSignature, hdrTruthy, hw, hsig, hmsg, hts, hp, hnw,
      hkey, hb58, hver]

/-- Claim C4 witness: a request timestamped 5 minutes and 1 second
(301000 ms) in the past is rejected as expired, and one timestamped
4 minutes 59 seconds (299000 ms) in the past is authenticated. -/
theorem c4_timestamp_window_witness :
    verifyWalletSignature false (fun s => if s == "0" then some 0 else none)
      (fun _ => true) (fun _ => true) (fun _ _ _ => true) 301000
      { walletAddress := some "walletA", signature := some "sigBytes",
        message := some "login", timestamp := some "0",
        paramsAddress := none, bodyWalletAddress := none }
    = .unauthorized "Timestamp expired" ∧
    verifyWalletSignature false (fun s => if s == "0" then some 0 else none)
      (fun _ => true) (fun _ => true) (fun _ _ _ => true) 299000
      { walletAddress := some "walletA", signature := some "sigBytes",
        message := some "login", timestamp := some "0",
        paramsAddress := none, bodyWalletAddress := none }
    = .authenticated "walletA" := by
  constructor
  · exact (c4_timestamp_window
      (fun s => if s == "0" then some 0 else none) (fun _ => true)
      (fun _ => true) (fun _ _ _ => true) 301000 0 "walletA" "sigBytes"
      "login" "0" (by decide) (by decide) (by decide) (by decide)
      (by decide)).1 (by decide)
  · exact (c4_timestamp_window
      (fun s => if s == "0" then some 0 else none) (fun _ => true)
      (fun _ => true) (fun _ _ _ => true) 299000 0 "walletA" "sigBytes"
      "login" "0" (by decide) (by decide) (by decide) (by decide)
      (by decide)).2 (by decide) rfl rfl rfl

/-- Claim C9: when simplified authentication mode is enabled, any request
with a truthy well-formed wallet-address header and a parseable timestamp
header is authenticated as that wallet, for EVERY params/body content — the
ownership comparison is never reached, so a request naming a different
wallet is not rejected with 403. -/
theorem c9_simple_mode_no_ownership_check (parseIntJs : String → Option Int)
    (isValidPublicKey decodesBase58 : String → Bool)
    (verifyDetached : String → String → String → Bool)
    (nowMs n : Int) (w ts : String) (sig msg pa bw : Option String)
    (hw : w ≠ "") (hts : ts ≠ "")
    (hkey : isValidPublicKey w = true)
    (hp : parseIntJs ts = some n) :
    verifyWalletSignature true parseIntJs isValidPublicKey decodesBase58
      verifyDetached nowMs
      { walletAddress := some w, signature := sig, message := msg,
        timestamp := some ts, paramsAddress := pa,
        bodyWalletAddress := bw }
    = .authenticated w := by
  simp [verifyWalletSignature, hdrTruthy, hw, hts, hkey, hp]

/-- Claim C9 witness: a concrete simplified-mode request whose params and
body both name a different wallet is still authenticated as the header
wallet. -/
theorem c9_simple_mode_witness :
    verifyWalletSignature true (fun s => if s == "42" then some 42 else none)
      (fun _ => true) (fun _ => true) (fun _ _ _ => true) 0
      { walletAddress := some "walletA", signature := none, message := none,
        timestamp := some "42", paramsAddress := some "walletB",
        bodyWalletAddress := some "walletC" }
    = .authenticated "walletA" := by
  exact c9_simple_mode_no_ownership_check
    (fun s => if s == "42" then some 42 else none) (fun _ => true)
    (fun _ => true) (fun _ _ _ => true) 0 42 "walletA" "42"
    none none (some "walletB") (some "walletC") (by decide) (by decide)
    rfl (by decide)

/-- Claim C5, counterexample: creating a LITE goal while supplying a risk
tier is NOT rejected — the handler builds the transaction (with the tier
silently ignored), although the claim says a lite goal with a risk tier
supplied is rejected. -/
theorem c5_counterexample :
    postCreateGoal 0
      (some { owner := "walletA", totalGoalsCreated := 2, activeGoals := 1,
              lifetimeDeposits := 0, lifetimeWithdrawals := 0 })
      "walletA" "trip" 1000 "lite" (some "low") true 100000000
    = .built 2 none := by
  decide

/-- Claim C5 (amended): creating a pro goal without a truthy risk tier is
rejected before any transaction is built, but creating a lite goal with a
risk tier supplied is ACCEPTED — the handler builds the transaction and the
risk-tier instruction argument encoded by `buildCreateGoalTx` is `null`
(the supplied tier is ignored), it is not a rejection. -/
theorem c5_risk_tier (nowSec : Int) (u : UserAccount) (w name : String)
    (targetAmount : Nat) (riskTier : Option String) (deadline : Int)
    (hw : w ≠ "") (hname : name ≠ "") (hta : targetAmount ≠ 0)
    (hdl0 : deadline ≠ 0) (hact : u.activeGoals < 5)
    (hdl : nowSec + 90 * 24 * 60 * 60 ≤ deadline) :
    (optTruthy riskTier = false →
      postCreateGoal nowSec (some u) w name targetAmount "pro" riskTier
        true deadline = .missingRiskTier) ∧
    postCreateGoal nowSec (some u) w name targetAmount "lite" riskTier
      true deadline = .built u.totalGoalsCreated none := by
  have hact2 : ¬ (u.activeGoals ≥ 5) := not_le.mpr hact
  have hdl2 : ¬ (deadline < nowSec + 90 * 24 * 60 * 60) := not_lt.mpr hdl
  constructor
  · intro hrt
    simp [postCreateGoal, hw, hname, hta, hdl0, hrt]
  · simp [postCreateGoal, riskTierArg, hw, hname, hta, hdl0, hact2, hdl2]
    omega

/-- Claim C5 witness: a pro-mode request without a risk tier is rejected
with the missing-risk-tier error, and a lite-mode request carrying
`riskTier = "high"` is built with a `null` risk-tier argument. -/
theorem c5_risk_tier_witness :
    postCreateGoal 0
      (some { owner := "walletA", totalGoalsCreated := 3, activeGoals := 2,
              lifetimeDeposits := 0, lifetimeWithdrawals := 0 })
      "walletA" "trip" 1000 "pro" none true 100000000
    = .missingRiskTier ∧
    postCreateGoal 0
      (some { owner := "walletA", totalGoalsCreated := 3, activeGoals := 2,
              lifetimeDeposits := 0, lifetimeWithdrawals := 0 })
      "walletA" "trip" 1000 "lite" (some "high") true 100000000
    = .built 3 none := by
  constructor
  · exact (c5_risk_tier 0
      { owner := "walletA", totalGoalsCreated := 3, activeGoals := 2,
        lifetimeDeposits := 0, lifetimeWithdrawals := 0 }
      "walletA" "trip" 1000 none 100000000 (by decide) (by decide)
      (by decide) (by decide) (by decide) (by decide)).1 rfl
  · exact (c5_risk_tier 0
      { owner := "walletA", totalGoalsCreated := 3, activeGoals := 2,
        lifetimeDeposits := 0, lifetimeWithdrawals := 0 }
      "walletA" "trip" 1000 (some "high") 100000000 (by decide) (by decide)
      (by decide) (by decide) (by decide) (by decide)).2

/-- Claim C6: for a faucet claim by a wallet whose FaucetAccount exists
(faucet enabled, mint resolved), the claim is rejected with a 429
rate-limit outcome when fewer than 3600 seconds have elapsed since the last
claim, rejected when `claimsToday ≥ 10` regardless of cooldown, and
accepted (the transaction is built) when at least 3600 seconds have elapsed
and fewer than 10 claims were made today. -/
theorem c6_faucet_rate_limit (nowSec : Int) (w : String)
    (acct : UserFaucetAccount) (hw : w ≠ "") :
    (nowSec - acct.lastClaimTime < 3600 →
      (postFaucetClaim true nowSec w true (some acct)).isRateLimited
        = true) ∧
    (acct.claimsToday ≥ 10 →
      (postFaucetClaim true nowSec w true (some acct)).isRateLimited
        = true) ∧
    (3600 ≤ nowSec - acct.lastClaimTime → acct.claimsToday < 10 →
      postFaucetClaim true nowSec w true (some acct) = .built) := by
  refine ⟨?_, ?_, ?_⟩
  · intro hcool
    simp [postFaucetClaim, FaucetResult.isRateLimited, hw, hcool]
  · intro hclaims
    by_cases hcool : nowSec - acct.lastClaimTime < 3600
    · simp [postFaucetClaim, FaucetResult.isRateLimited, hw, hcool]
    · simp [postFaucetClaim, FaucetResult.isRateLimited, hw, hcool,
        hclaims]
  · intro hcool hclaims
    have hc2 : ¬ (nowSec - acct.lastClaimTime < 3600) := not_lt.mpr hcool
    have hc3 : ¬ (acct.claimsToday ≥ 10) := not_le.mpr hclaims
    simp [postFaucetClaim, hw, hc2, hc3]

/-- Claim C6 witness: last claim 30 minutes ago is rejected (cooldown);
10 claims today with the cooldown long elapsed is rejected (daily limit);
last claim 61 minutes ago with 9 claims today is accepted. -/
theorem c6_faucet_rate_limit_witness :
    (postFaucetClaim true 100000 "walletA" true
      (some { user := "walletA", lastClaimTime := 98200, claimsToday := 3,
              totalClaims := 3 })).isRateLimited = true ∧
    (postFaucetClaim true 100000 "walletA" true
      (some { user := "walletA", lastClaimTime := 90000,
              claimsToday := 10, totalClaims := 10 })).isRateLimited
      = true ∧
    postFaucetClaim true 100000 "walletA" true
      (some { user := "walletA", lastClaimTime := 96340, claimsToday := 9,
              totalClaims := 9 }) = .built := by
  refine ⟨?_, ?_, ?_⟩
  · exact (c6_faucet_rate_limit 100000 "walletA"
      { user := "walletA", lastClaimTime := 98200, claimsToday := 3,
        totalClaims := 3 } (by decide)).1 (by decide)
  · exact (c6_faucet_rate_limit 100000 "walletA"
      { user := "walletA", lastClaimTime := 90000, claimsToday := 10,
        totalClaims := 10 } (by decide)).2.1 (by decide)
  · exact (c6_faucet_rate_limit 100000 "walletA"
      { user := "walletA", lastClaimTime := 96340, claimsToday := 9,
        totalClaims := 9 } (by decide)).2.2 (by decide) (by decide)

/-- Claim C7 (code bug): the deposit route accepts the decimal string "0"
as an amount — `validateAmount` declares it valid and the handler proceeds
to build a zero-amount deposit transaction instead of rejecting it with a
validation error (a zero passed as a JS number is caught, but only by the
falsy missing-fields guard). -/
theorem c7_zero_amount_accepted :
    validateAmount (.str "0") = true ∧
    jsTruthy (.str "0") = true ∧
    postDeposit "walletA" true (.str "0") (some 0)
      (some { name := "g", targetAmount := 1000, currentAmount := 500,
              accruedInterest := 0, currencyId := 0, createdAt := 0,
              deadline := 999, status := .active })
    = .built 0 500 := by
  refine ⟨?_, ?_, ?_⟩ <;> decide

/-- Claim C8, counterexample: `getGlobalState` and `getCurrencyConfig` do
NOT return an empty/absent result when the account does not exist — their
catch blocks rethrow, so the fetch error propagates, contradicting the
claim that every state-reading operation returns absent on a missing
account. -/
theorem c8_counterexample :
    getGlobalState (.error .accountNotFound)
      = .error .accountNotFound ∧
    getCurrencyConfig 0 (.error .accountNotFound)
      = .error .accountNotFound :=
  ⟨rfl, rfl⟩

/-- Claim C8 (amended): of the ChainStateReader operations, `getUserAccount`,
`getGoalAccount`, `getFaucetConfig` and `getUserFaucetAccount` return an
absent result (`null`) when the account does not exist, while
`getGlobalState` and `getCurrencyConfig` raise (rethrow) the
account-does-not-exist error instead. -/
theorem c8_not_found_behaviour :
    getUserAccount (.error .accountNotFound) = .ok none ∧
    getGoalAccount (.error .accountNotFound) = .ok none ∧
    getFaucetConfig (.error .accountNotFound) = .ok none ∧
    getUserFaucetAccount (.error .accountNotFound) = .ok none ∧
    getGlobalState (.error .accountNotFound) = .error .accountNotFound ∧
    getCurrencyConfig 1 (.error .accountNotFound)
      = .error .accountNotFound :=
  ⟨rfl, rfl, rfl, rfl, rfl, rfl⟩

/-- Claim C10: the goal-account and currency-config PDAs encode the goal
index / currency id as a single byte (`Buffer.from([v])` keeps `v % 256`),
so for ANY derivation function, any wallet, and any two indices congruent
modulo 256 the derived addresses coincide — derivation for an index of 256
or more is total (it does not fail), it silently collides. -/
theorem c10_pda_byte_collision
    (find : List (List Nat) → List Nat → List Nat)
    (programId walletBytes : List Nat) (i j c d : Nat)
    (hij : i % 256 = j % 256) (hcd : c % 256 = d % 256) :
    getGoalAccountPDA find programId walletBytes i
      = getGoalAccountPDA find programId walletBytes j ∧
    getCurrencyConfigPDA find programId c
      = getCurrencyConfigPDA find programId d := by
  unfold getGoalAccountPDA getCurrencyConfigPDA goalSeeds currencySeeds
    byteSeed
  rw [hij, hcd]
  exact ⟨rfl, rfl⟩

/-- Claim C10 witness: with a concrete derivation function, goal index 257
collides with goal index 1, and currency id 256 collides with currency
id 0. -/
theorem c10_pda_byte_collision_witness :
    getGoalAccountPDA (fun seeds pid => seeds.foldl List.append pid)
      [9] [1, 2] 257
      = getGoalAccountPDA (fun seeds pid => seeds.foldl List.append pid)
        [9] [1, 2] 1 ∧
    getCurrencyConfigPDA (fun seeds pid => seeds.foldl List.append pid)
      [9] 256
      = getCurrencyConfigPDA (fun seeds pid => seeds.foldl List.append pid)
        [9] 0 :=
  c10_pda_byte_collision (fun seeds pid => seeds.foldl List.append pid)
    [9] [1, 2] 257 1 256 0 (by decide) (by decide)

end StackSave
